import Mathlib

set_option autoImplicit false

/-!
Shallow embedding of services/core/jni/com_android_server_tv_TvInputHal.cpp:
the BufferProducerThread single-buffer capture pipeline and the JTvInputHal
connection registry.

Modeling conventions:
- sp<Surface>, sp<ANativeWindowBuffer_t> and sp<NativeHandle> references are
  Option Nat: none is a NULL sp, some n is a reference to object n.  sp
  comparison in the source is pointer comparison, hence Nat equality here.
- uint32_t mSeq is a Nat kept below 2 ^ 32; the source increment ++mSeq is
  (mSeq + 1) % 2 ^ 32, the uint32_t overflow semantics.
- Condition.waitRelative releases mLock; the producer fields that other
  threads (setSurface, onCaptured, shutdown, or another threadLoop turn) may
  have written while the lock was free are supplied by a WaitObservation for
  each executed wait.  This over-approximates the concurrent environment:
  theorems quantify over all observation traces.  A loop whose observation
  trace runs out while the looping condition still holds corresponds to an
  execution that has not yet left the loop; embedded operations return none
  on such traces.
- Calls into the capture device (tv_input_device_t for the producer, the
  ITvInput service for the registry) are collected in an output list.
- JNI marshaling, class tables and the Looper plumbing are out of scope;
  callbacks into the Java layer are collected as Notification values.
-/

inductive BufferState
  | CAPTURING
  | CAPTURED
  | RELEASED
  deriving DecidableEq, Repr

/-- The mutable fields of one BufferProducerThread, plus the constructor
parameters mDeviceId and mStream.stream_id that device calls mention. -/
structure ProducerState where
  mDeviceId : Nat
  mStreamId : Nat
  mSurface : Option Nat
  mBuffer : Option Nat
  mBufferState : BufferState
  mSeq : Nat
  mShutdown : Bool
  deriving DecidableEq, Repr

/-- Outcome class of one Condition.waitRelative call: NO_ERROR, TIMED_OUT,
or any other error status. -/
inductive WaitStatus
  | ok
  | timedOut
  | error
  deriving DecidableEq, Repr

/-- What one waitRelative call observed: its return status, and the values
the shared fields had when the lock was reacquired (these may have been
rewritten by concurrent operations while the lock was free). -/
structure WaitObservation where
  status : WaitStatus
  mSurface : Option Nat
  mBuffer : Option Nat
  mBufferState : BufferState
  mSeq : Nat
  mShutdown : Bool
  deriving DecidableEq, Repr

def applyObs (s : ProducerState) (o : WaitObservation) : ProducerState :=
  { s with mSurface := o.mSurface, mBuffer := o.mBuffer,
           mBufferState := o.mBufferState, mSeq := o.mSeq,
           mShutdown := o.mShutdown }

/-- Calls made on the capture device.  cancelCapture and requestCapture go to
the producer's tv_input_device_t; the last three go to the ITvInput service
held by JTvInputHal. -/
inductive DeviceCall
  | cancelCapture (deviceId streamId seq : Nat)
  | requestCapture (deviceId streamId buffer seq : Nat)
  | getStreamConfigurations (deviceId : Nat)
  | openStream (deviceId streamId : Nat)
  | closeStream (deviceId streamId : Nat)
  deriving DecidableEq, Repr

/-- How a while (mBufferState == CAPTURING) waitRelative loop ended:
exhausted is the modeling artifact of a too-short observation trace,
waitFailed is the exit through a non-NO_ERROR wait status, stateLeft is the
exit through the loop condition turning false. -/
inductive WaitLoopExit
  | exhausted
  | waitFailed (s : ProducerState)
  | stateLeft (s : ProducerState)
  deriving DecidableEq, Repr

/-- The loop while (mBufferState == CAPTURING) { err = waitRelative(1s);
if (err != NO_ERROR) break-or-return; } shared by setSurfaceLocked (which
breaks) and threadLoop (which returns false). -/
def capturingWaitLoop : ProducerState → List WaitObservation → WaitLoopExit
  | s, [] =>
    if s.mBufferState = BufferState.CAPTURING then WaitLoopExit.exhausted
    else WaitLoopExit.stateLeft s
  | s, o :: rest =>
    if s.mBufferState = BufferState.CAPTURING then
      if o.status = WaitStatus.ok then capturingWaitLoop (applyObs s o) rest
      else WaitLoopExit.waitFailed (applyObs s o)
    else WaitLoopExit.stateLeft s

/-- BufferProducerThread::BufferProducerThread: mBuffer(NULL),
mBufferState(RELEASED), mSeq(0u), mShutdown(false); mSurface is a
default-constructed (null) sp. -/
def BufferProducerThread.init (deviceId streamId : Nat) : ProducerState :=
  { mDeviceId := deviceId, mStreamId := streamId, mSurface := none,
    mBuffer := none, mBufferState := BufferState.RELEASED, mSeq := 0,
    mShutdown := false }

/-- BufferProducerThread::setSurfaceLocked.  If the surface is unchanged,
return.  Otherwise, if CAPTURING, issue cancel_capture for the in-flight
sequence; wait (breaking on any non-NO_ERROR status, timeouts included)
until the state leaves CAPTURING; then unconditionally clear the buffer,
force RELEASED, and install the new surface.  The broadcast has no state
effect. -/
def BufferProducerThread.setSurfaceLocked (s : ProducerState)
    (surface : Option Nat) (obs : List WaitObservation) :
    Option (ProducerState × List DeviceCall) :=
  if surface = s.mSurface then some (s, [])
  else
    match capturingWaitLoop s obs with
    | WaitLoopExit.exhausted => none
    | WaitLoopExit.waitFailed s1 =>
        some ({ s1 with mBuffer := none, mBufferState := BufferState.RELEASED,
                        mSurface := surface },
              if s.mBufferState = BufferState.CAPTURING then
                [DeviceCall.cancelCapture s.mDeviceId s.mStreamId s.mSeq]
              else [])
    | WaitLoopExit.stateLeft s1 =>
        some ({ s1 with mBuffer := none, mBufferState := BufferState.RELEASED,
                        mSurface := surface },
              if s.mBufferState = BufferState.CAPTURING then
                [DeviceCall.cancelCapture s.mDeviceId s.mStreamId s.mSeq]
              else [])

/-- BufferProducerThread::setSurface only takes mLock and calls
setSurfaceLocked; lock acquisition has no state effect here. -/
def BufferProducerThread.setSurface (s : ProducerState) (surface : Option Nat)
    (obs : List WaitObservation) : Option (ProducerState × List DeviceCall) :=
  BufferProducerThread.setSurfaceLocked s surface obs

/-- The two ALOGW warnings of BufferProducerThread::onCaptured. -/
inductive WarningLog
  | incorrectSequence (expected actual : Nat)
  | notCapturingState (st : BufferState)
  deriving DecidableEq, Repr

/-- BufferProducerThread::onCaptured: warn if seq mismatches or if the state
is not CAPTURING, then (in every case) set CAPTURED on success, or clear the
buffer and set RELEASED on failure. -/
def BufferProducerThread.onCaptured (s : ProducerState) (seq : Nat)
    (succeeded : Bool) : ProducerState × List WarningLog :=
  let w1 : List WarningLog :=
    if seq ≠ s.mSeq then [WarningLog.incorrectSequence s.mSeq seq] else []
  let w2 : List WarningLog :=
    if s.mBufferState ≠ BufferState.CAPTURING then
      [WarningLog.notCapturingState s.mBufferState]
    else []
  if succeeded then
    ({ s with mBufferState := BufferState.CAPTURED }, w1 ++ w2)
  else
    ({ s with mBuffer := none, mBufferState := BufferState.RELEASED }, w1 ++ w2)

/-- BufferProducerThread::shutdown: set mShutdown, then setSurfaceLocked(NULL).
requestExitAndWait only joins the loop thread. -/
def BufferProducerThread.shutdown (s : ProducerState)
    (obs : List WaitObservation) : Option (ProducerState × List DeviceCall) :=
  BufferProducerThread.setSurfaceLocked { s with mShutdown := true } none obs

/-- Environment of one threadLoop iteration: the observation for the wait in
the null-surface branch, the observations for the while-CAPTURING loop, the
status of anw->queueBuffer, and the result of
native_window_dequeue_buffer_and_wait (none is an error, some b the
dequeued buffer). -/
structure LoopEnv where
  surfaceWait : WaitObservation
  capturingWaits : List WaitObservation
  queueBufferOk : Bool
  dequeueResult : Option Nat
  deriving DecidableEq, Repr

/-- The tail of a threadLoop iteration from the statement
if (mBuffer == NULL && !mShutdown && anw != NULL) on: dequeue a buffer (a
failure returns false), store it, set CAPTURING, and request a capture with
the incremented sequence. -/
def threadLoopDequeue (anw : Option Nat) (env : LoopEnv) (s2 : ProducerState) :
    Option (Bool × ProducerState × List DeviceCall) :=
  if s2.mBuffer = none ∧ s2.mShutdown = false ∧ anw ≠ none then
    match env.dequeueResult with
    | none => some (false, s2, [])
    | some b =>
      let newSeq := (s2.mSeq + 1) % 2 ^ 32
      some (true,
            { s2 with mBuffer := some b,
                      mBufferState := BufferState.CAPTURING,
                      mSeq := newSeq },
            [DeviceCall.requestCapture s2.mDeviceId s2.mStreamId b newSeq])
  else some (true, s2, [])

/-- BufferProducerThread::threadLoop, one iteration.  Returns the loop
continuation flag, the state at exit, and the device calls made.  The anw
snapshot is taken from mSurface before the CAPTURING wait loop, exactly as in
the source; the straight-line fall-through after the CAPTURED branch is
threadLoopDequeue. -/
def BufferProducerThread.threadLoop (s : ProducerState) (env : LoopEnv) :
    Option (Bool × ProducerState × List DeviceCall) :=
  if s.mSurface = none then
    if env.surfaceWait.status = WaitStatus.error then
      some (false, applyObs s env.surfaceWait, [])
    else some (true, applyObs s env.surfaceWait, [])
  else
    match capturingWaitLoop s env.capturingWaits with
    | WaitLoopExit.exhausted => none
    | WaitLoopExit.waitFailed s1 => some (false, s1, [])
    | WaitLoopExit.stateLeft s1 =>
      if s1.mBufferState = BufferState.CAPTURED ∧ s.mSurface ≠ none then
        if env.queueBufferOk then
          threadLoopDequeue s.mSurface env
            { s1 with mBuffer := none, mBufferState := BufferState.RELEASED }
        else some (false, s1, [])
      else threadLoopDequeue s.mSurface env s1

/-- The buffer-vs-state invariant of the spec: a buffer reference is held iff
the state is CAPTURING or CAPTURED. -/
def bufferInv (s : ProducerState) : Prop :=
  s.mBuffer ≠ none ↔
    (s.mBufferState = BufferState.CAPTURING ∨
     s.mBufferState = BufferState.CAPTURED)

/-- The same relation on the fields a wait observation reports: it holds when
the concurrent writers active during the wait left the invariant intact. -/
def obsInv (o : WaitObservation) : Prop :=
  o.mBuffer ≠ none ↔
    (o.mBufferState = BufferState.CAPTURING ∨
     o.mBufferState = BufferState.CAPTURED)

instance (s : ProducerState) : Decidable (bufferInv s) := by
  unfold bufferInv; infer_instance

instance (o : WaitObservation) : Decidable (obsInv o) := by
  unfold obsInv; infer_instance

/-- tv_stream_type_t values used by the source. -/
inductive StreamType
  | BUFFER_PRODUCER
  | INDEPENDENT_VIDEO_SOURCE
  deriving DecidableEq, Repr

/-- JTvInputHal::Connection.  The C++ default constructor leaves mStreamType
uninitialized; that is modeled as none (it is written before any read on
every path of this file).  mThread inlines the producer state the sp points
to. -/
structure Connection where
  mSurface : Option Nat
  mStreamType : Option StreamType
  mSourceHandle : Option Nat
  mThread : Option ProducerState
  deriving DecidableEq, Repr

def Connection.init : Connection :=
  { mSurface := none, mStreamType := none, mSourceHandle := none,
    mThread := none }

/-- KeyedVector lookup (valueFor after a successful indexOfKey). -/
def lookupKey {α : Type} : List (Nat × α) → Nat → Option α
  | [], _ => none
  | (k, v) :: rest, key => if k = key then some v else lookupKey rest key

/-- In-place mutation through a reference obtained by editValueFor. -/
def updateKey {α : Type} : List (Nat × α) → Nat → α → List (Nat × α)
  | [], _, _ => []
  | (k, v) :: rest, key, nv =>
    if k = key then (key, nv) :: rest else (k, v) :: updateKey rest key nv

/-- KeyedVector::add: replace the entry if the key exists, append otherwise
(KeyedVector keys are unique). -/
def addKey {α : Type} (l : List (Nat × α)) (key : Nat) (v : α) :
    List (Nat × α) :=
  if (lookupKey l key).isSome then updateKey l key v else l ++ [(key, v)]

/-- KeyedVector::removeItem.  KeyedVector keys are unique, so removing the
key's unique entry is a filter. -/
def removeKey {α : Type} (l : List (Nat × α)) (key : Nat) : List (Nat × α) :=
  l.filter (fun kv => !(kv.1 == key))

def keysOf {α : Type} (l : List (Nat × α)) : List Nat := l.map Prod.fst

/-- The connection tables: mConnections maps deviceId to the KeyedVector of
streamId-keyed Connections. -/
structure HalState where
  mConnections : List (Nat × List (Nat × Connection))
  deriving DecidableEq, Repr

def connAt (st : HalState) (deviceId streamId : Nat) : Option Connection :=
  match lookupKey st.mConnections deviceId with
  | none => none
  | some connections => lookupKey connections streamId

/-- Surface::isValid, an external property of surface objects. -/
structure SurfaceEnv where
  isValid : Nat → Bool

/-- android::hardware::tv::input::V1_0::Result. -/
inductive Result
  | OK
  | UNKNOWN
  | NO_RESOURCE
  | INVALID_ARGUMENTS
  | INVALID_STATE
  deriving DecidableEq, Repr

/-- The TvStreamConfig fields this file reads. -/
structure TvStreamConfig where
  streamId : Nat
  maxVideoWidth : Nat
  maxVideoHeight : Nat
  deriving DecidableEq, Repr

/-- Behavior of the ITvInput service for the calls the registry makes.
openStream yields the status and the (possibly null) native handle its
callback receives. -/
structure ITvInput where
  getStreamConfigurations : Nat → Result × List TvStreamConfig
  openStream : Nat → Nat → Result × Option Nat
  closeStream : Nat → Nat → Result

/-- The status_t values this file returns. -/
inductive Status
  | NO_ERROR
  | BAD_VALUE
  | UNKNOWN_ERROR
  deriving DecidableEq, Repr

/-- Callbacks into the Java layer (marshaling itself is out of scope). -/
inductive Notification
  | deviceAvailable (deviceId : Nat)
  | deviceUnavailable (deviceId : Nat)
  | streamConfigsChanged (deviceId cableConnectionStatus : Nat)
  | firstFrameCaptured (deviceId streamId : Nat)
  deriving DecidableEq, Repr

/-- Write the mutated Connection back through the editValueFor references. -/
def writeConn (st : HalState) (deviceId streamId : Nat)
    (connections : List (Nat × Connection)) (c : Connection) : HalState :=
  { st with mConnections :=
      updateKey st.mConnections deviceId (updateKey connections streamId c) }

/-- Lines 344-346 of the source: if connections.indexOfKey(streamId) < 0,
connections.add(streamId, Connection()); the device's stream table after
that statement. -/
def ensureConnection (connections0 : List (Nat × Connection))
    (streamId : Nat) : List (Nat × Connection) :=
  if (lookupKey connections0 streamId).isNone then
    addKey connections0 streamId Connection.init
  else connections0

/-- The whole connection table after the same statement (the add mutates the
KeyedVector held inside mConnections in place). -/
def ensureDeviceTable (st : HalState) (deviceId streamId : Nat)
    (connections0 : List (Nat × Connection)) : HalState :=
  if (lookupKey connections0 streamId).isNone then
    { st with mConnections := (updateKey st.mConnections deviceId
        (ensureConnection connections0 streamId)) }
  else st

/-- JTvInputHal::addOrUpdateStream.  none models the undefined behavior of
editValueFor on a deviceId absent from mConnections.  setSidebandStream is a
surface-side call with no effect on the modeled state.  native_handle_clone
is modeled as the identity on the handle.  The source computes configIndex
and only ever compares it with -1, so the config list is consulted through
(findIdx? ...).isSome alone. -/
def JTvInputHal.addOrUpdateStream (tv : ITvInput) (env : SurfaceEnv)
    (st : HalState) (deviceId streamId : Nat) (surface : Option Nat) :
    Option (Status × HalState × List DeviceCall) :=
  match lookupKey st.mConnections deviceId with
  | none => none
  | some connections0 =>
    let connections := ensureConnection connections0 streamId
    let st0 := ensureDeviceTable st deviceId streamId connections0
    match lookupKey connections streamId with
    | none => none
    | some connection =>
      if connection.mSurface = surface then
        some (Status.NO_ERROR, st0, [])
      else
        let c1 :=
          if connection.mSurface ≠ none then { connection with mSurface := none }
          else connection
        if c1.mSourceHandle = none ∧ c1.mThread = none then
          let gsc := tv.getStreamConfigurations deviceId
          if gsc.1 ≠ Result.OK then
            some (Status.UNKNOWN_ERROR,
                  writeConn st0 deviceId streamId connections c1,
                  [DeviceCall.getStreamConfigurations deviceId])
          else if (gsc.2.findIdx? (fun cfg => cfg.streamId == streamId)).isSome
              = false then
            some (Status.BAD_VALUE,
                  writeConn st0 deviceId streamId connections c1,
                  [DeviceCall.getStreamConfigurations deviceId])
          else
            let c2 :=
              { c1 with mStreamType := some StreamType.INDEPENDENT_VIDEO_SOURCE }
            let os := tv.openStream deviceId streamId
            match os.1, os.2 with
            | Result.OK, some handle =>
              let c4 := { c2 with mSourceHandle := some handle,
                                  mSurface := surface }
              some (Status.NO_ERROR,
                    writeConn st0 deviceId streamId connections c4,
                    [DeviceCall.getStreamConfigurations deviceId,
                     DeviceCall.openStream deviceId streamId])
            | _, _ =>
              some (Status.UNKNOWN_ERROR,
                    writeConn st0 deviceId streamId connections c2,
                    [DeviceCall.getStreamConfigurations deviceId,
                     DeviceCall.openStream deviceId streamId])
        else
          let c4 := { c1 with mSurface := surface }
          some (Status.NO_ERROR,
                writeConn st0 deviceId streamId connections c4, [])

/-- Lines 431-434 of the source: if the connection owns a producer thread,
shut it down and clear the sp; the surface was already cleared into c1. -/
def shutdownThread (c1 : Connection) (obs : List WaitObservation) :
    Option (Connection × List DeviceCall) :=
  match c1.mThread with
  | none => some (c1, [])
  | some p =>
    match BufferProducerThread.shutdown p obs with
    | none => none
    | some (_, pcalls) => some ({ c1 with mThread := none }, pcalls)

/-- JTvInputHal::removeStream.  obs feeds the bounded waits of the producer
shutdown when the Connection owns a thread.  On a closeStream failure the
source returns BAD_VALUE with the surface and thread already cleared but the
source handle still held. -/
def JTvInputHal.removeStream (tv : ITvInput) (env : SurfaceEnv) (st : HalState)
    (deviceId streamId : Nat) (obs : List WaitObservation) :
    Option (Status × HalState × List DeviceCall) :=
  match lookupKey st.mConnections deviceId with
  | none => none
  | some connections =>
    match lookupKey connections streamId with
    | none => some (Status.BAD_VALUE, st, [])
    | some connection =>
      if connection.mSurface = none then some (Status.NO_ERROR, st, [])
      else
        match shutdownThread { connection with mSurface := none } obs with
        | none => none
        | some (c2, pcalls) =>
          if tv.closeStream deviceId streamId ≠ Result.OK then
            some (Status.BAD_VALUE,
                  writeConn st deviceId streamId connections c2,
                  pcalls ++ [DeviceCall.closeStream deviceId streamId])
          else
            some (Status.NO_ERROR,
                  writeConn st deviceId streamId connections
                    (if c2.mSourceHandle ≠ none then
                      { c2 with mSourceHandle := none }
                    else c2),
                  pcalls ++ [DeviceCall.closeStream deviceId streamId])

/-- The for loop of onDeviceUnavailable and onStreamConfigurationsChanged:
removeStream for every key, collecting the per-stream status; a failing
removeStream does not stop the sweep. -/
def removeAllStreams (tv : ITvInput) (env : SurfaceEnv) :
    HalState → Nat → List Nat → (Nat → List WaitObservation) →
    Option (HalState × List DeviceCall × List (Nat × Status))
  | st, _, [], _ => some (st, [], [])
  | st, deviceId, k :: rest, obsFn =>
    match JTvInputHal.removeStream tv env st deviceId k (obsFn k) with
    | none => none
    | some (stat, st1, calls1) =>
      match removeAllStreams tv env st1 deviceId rest obsFn with
      | none => none
      | some (st2, calls2, stats) =>
        some (st2, calls1 ++ calls2, (k, stat) :: stats)

/-- JTvInputHal::onDeviceUnavailable: removeStream on every Connection of the
device, then clear and remove the device's table, then notify once. -/
def JTvInputHal.onDeviceUnavailable (tv : ITvInput) (env : SurfaceEnv)
    (st : HalState) (deviceId : Nat) (obsFn : Nat → List WaitObservation) :
    Option (HalState × List DeviceCall × List (Nat × Status) ×
            List Notification) :=
  match lookupKey st.mConnections deviceId with
  | none => none
  | some connections =>
    match removeAllStreams tv env st deviceId (keysOf connections) obsFn with
    | none => none
    | some (st1, calls, stats) =>
      some ({ st1 with mConnections := removeKey st1.mConnections deviceId },
            calls, stats, [Notification.deviceUnavailable deviceId])

/-- JTvInputHal::onStreamConfigurationsChanged: same sweep, but the device
table entry is only cleared, not removed. -/
def JTvInputHal.onStreamConfigurationsChanged (tv : ITvInput)
    (env : SurfaceEnv) (st : HalState) (deviceId cable : Nat)
    (obsFn : Nat → List WaitObservation) :
    Option (HalState × List DeviceCall × List (Nat × Status) ×
            List Notification) :=
  match lookupKey st.mConnections deviceId with
  | none => none
  | some connections =>
    match removeAllStreams tv env st deviceId (keysOf connections) obsFn with
    | none => none
    | some (st1, calls, stats) =>
      some ({ st1 with mConnections := updateKey st1.mConnections deviceId [] },
            calls, stats,
            [Notification.streamConfigsChanged deviceId cable])

/-- JTvInputHal::onDeviceAvailable: create the empty table for the device and
notify (only the deviceId part of the descriptor is modeled; the rest is
marshaling). -/
def JTvInputHal.onDeviceAvailable (st : HalState) (deviceId : Nat) :
    HalState × List Notification :=
  ({ st with mConnections := addKey st.mConnections deviceId [] },
   [Notification.deviceAvailable deviceId])

/-- JTvInputHal::onCaptured: look up the Connection's thread (log and return
if absent), forward the completion to it, and raise firstFrameCaptured
whenever seq == 0.  none models editValueFor on an absent key. -/
def JTvInputHal.onCaptured (st : HalState) (deviceId streamId seq : Nat)
    (succeeded : Bool) :
    Option (HalState × List WarningLog × List Notification) :=
  match lookupKey st.mConnections deviceId with
  | none => none
  | some connections =>
    match lookupKey connections streamId with
    | none => none
    | some connection =>
      match connection.mThread with
      | none => some (st, [], [])
      | some p =>
        let r := BufferProducerThread.onCaptured p seq succeeded
        let st1 := writeConn st deviceId streamId connections
          { connection with mThread := some r.1 }
        some (st1, r.2,
              if seq = 0 then [Notification.firstFrameCaptured deviceId streamId]
              else [])

/-!
Deterministic single-threaded execution harness for the producer loop: a
surface is bound once, every wait sees no concurrent writer, queueBuffer and
the dequeue always succeed (the dequeued buffer is object 0), and each
submitted capture is completed successfully by an onCaptured carrying the
expected sequence. -/

def happyEnv : LoopEnv :=
  { surfaceWait :=
      { status := WaitStatus.timedOut, mSurface := none, mBuffer := none,
        mBufferState := BufferState.RELEASED, mSeq := 0, mShutdown := false },
    capturingWaits := [],
    queueBufferOk := true,
    dequeueResult := some 0 }

/-- The producer right after construction and a first setSurface(surface 0):
see runStart_reachable below. -/
def runStart : ProducerState :=
  { mDeviceId := 1, mStreamId := 0, mSurface := some 0, mBuffer := none,
    mBufferState := BufferState.RELEASED, mSeq := 0, mShutdown := false }

/-- One threadLoop iteration followed by the successful completion callback
for the sequence it submitted. -/
def cycle (s : ProducerState) : ProducerState :=
  match BufferProducerThread.threadLoop s happyEnv with
  | none => s
  | some (_, s1, _) => (BufferProducerThread.onCaptured s1 s1.mSeq true).1

def runFromStart : Nat → ProducerState
  | 0 => runStart
  | n + 1 => cycle (runFromStart n)

/-- The sequence number carried by the request_capture call that cycle n
submits (none if that iteration submits no single request). -/
def cycleRequestSeq (n : Nat) : Option Nat :=
  match BufferProducerThread.threadLoop (runFromStart n) happyEnv with
  | some (_, _, [DeviceCall.requestCapture _ _ _ q]) => some q
  | _ => none

/-! Concrete fixtures used by witnesses and counterexamples. -/

def tvW : ITvInput :=
  { getStreamConfigurations := fun _ =>
      (Result.OK,
       [{ streamId := 0, maxVideoWidth := 1920, maxVideoHeight := 1080 }]),
    openStream := fun _ _ => (Result.OK, some 7),
    closeStream := fun _ _ => Result.OK }

def envW : SurfaceEnv := { isValid := fun _ => true }

/-- Device 1 available, no streams yet. -/
def stW0 : HalState := { mConnections := [(1, [])] }

def connW1 : Connection :=
  { mSurface := some 5, mStreamType := some StreamType.INDEPENDENT_VIDEO_SOURCE,
    mSourceHandle := some 7, mThread := none }

/-- stW0 after a successful addOrUpdateStream(1, 0, surface 5) against tvW. -/
def stW1 : HalState := { mConnections := [(1, [(0, connW1)])] }

def connW10 : Connection :=
  { mSurface := none, mStreamType := some StreamType.INDEPENDENT_VIDEO_SOURCE,
    mSourceHandle := none, mThread := none }

/-- stW1 after a successful removeStream(1, 0). -/
def stW10 : HalState := { mConnections := [(1, [(0, connW10)])] }

/-- A producer mid-capture, about to be rebound. -/
def sW6 : ProducerState :=
  { mDeviceId := 1, mStreamId := 0, mSurface := some 3, mBuffer := some 9,
    mBufferState := BufferState.CAPTURING, mSeq := 4, mShutdown := false }

/-- A single wait that fails while the state is still CAPTURING: the
cancellation never lands and setSurfaceLocked proceeds through the break. -/
def obsW6 : List WaitObservation :=
  [{ status := WaitStatus.error, mSurface := some 3, mBuffer := some 9,
     mBufferState := BufferState.CAPTURING, mSeq := 4, mShutdown := false }]

def sW6r : ProducerState :=
  { mDeviceId := 1, mStreamId := 0, mSurface := some 8, mBuffer := none,
    mBufferState := BufferState.RELEASED, mSeq := 4, mShutdown := false }

def pC7 : ProducerState :=
  { mDeviceId := 1, mStreamId := 0, mSurface := some 5, mBuffer := none,
    mBufferState := BufferState.RELEASED, mSeq := 0, mShutdown := false }

def cC7 : Connection :=
  { mSurface := some 5, mStreamType := some StreamType.BUFFER_PRODUCER,
    mSourceHandle := none, mThread := some pC7 }

/-- A Connection owning a producer, as the C7 scenario requires. -/
def stC7 : HalState := { mConnections := [(1, [(0, cC7)])] }

def pC7b : ProducerState :=
  { mDeviceId := 1, mStreamId := 0, mSurface := some 5, mBuffer := none,
    mBufferState := BufferState.CAPTURED, mSeq := 0, mShutdown := false }

def cC7b : Connection :=
  { mSurface := some 5, mStreamType := some StreamType.BUFFER_PRODUCER,
    mSourceHandle := none, mThread := some pC7b }

/-- stC7 after the first onCaptured(1, 0, seq 0, succeeded). -/
def stC7b : HalState := { mConnections := [(1, [(0, cC7b)])] }

/-- A device whose closeStream fails for stream 0 and succeeds otherwise. -/
def tvW8 : ITvInput :=
  { getStreamConfigurations := fun _ => (Result.OK, []),
    openStream := fun _ _ => (Result.OK, some 7),
    closeStream := fun _ sid => if sid = 0 then Result.UNKNOWN else Result.OK }

def cW8a : Connection :=
  { mSurface := some 4, mStreamType := some StreamType.INDEPENDENT_VIDEO_SOURCE,
    mSourceHandle := some 7, mThread := none }

def cW8b : Connection :=
  { mSurface := some 5, mStreamType := some StreamType.INDEPENDENT_VIDEO_SOURCE,
    mSourceHandle := some 8, mThread := none }

/-- Device 1 with two open streams (0 and 2), device 3 idle. -/
def stW8 : HalState :=
  { mConnections := [(1, [(0, cW8a), (2, cW8b)]), (3, [])] }

def noObs : Nat → List WaitObservation := fun _ => []

/-- stW8 after onDeviceUnavailable(1): device 1 gone, device 3 untouched. -/
def stW8r : HalState := { mConnections := [(3, [])] }

/-! Helper lemmas. -/

theorem bufferInv_applyObs (s : ProducerState) (o : WaitObservation) :
    bufferInv (applyObs s o) ↔ obsInv o := by
  simp [bufferInv, obsInv, applyObs]

theorem capturingWaitLoop_inv (obs : List WaitObservation) :
    ∀ (s s1 : ProducerState), bufferInv s → (∀ o ∈ obs, obsInv o) →
    (capturingWaitLoop s obs = WaitLoopExit.waitFailed s1 ∨
     capturingWaitLoop s obs = WaitLoopExit.stateLeft s1) → bufferInv s1 := by
  induction obs with
  | nil =>
    intro s s1 hI _ h
    rcases h with h | h <;> unfold capturingWaitLoop at h <;> split at h <;>
      simp_all
  | cons o rest ih =>
    intro s s1 hI hobs h
    rcases h with h | h <;> unfold capturingWaitLoop at h <;> split at h
    · split at h
      · exact ih (applyObs s o)  s1 ((bufferInv_applyObs s o).mpr
          (hobs o (List.mem_cons_self o rest))) (fun x hx => hobs x
          (List.mem_cons_of_mem o hx)) (Or.inl h)
      · cases h
        exact (bufferInv_applyObs s o).mpr (hobs o (List.mem_cons_self o rest))
    · simp_all
    · split at h
      · exact ih (applyObs s o) s1 ((bufferInv_applyObs s o).mpr
          (hobs o (List.mem_cons_self o rest))) (fun x hx => hobs x
          (List.mem_cons_of_mem o hx)) (Or.inr h)
      · simp_all
    · cases h
      exact hI

theorem capturingWaitLoop_seq (obs : List WaitObservation) :
    ∀ (s s1 : ProducerState) (q : Nat), s.mSeq = q → (∀ o ∈ obs, o.mSeq = q) →
    (capturingWaitLoop s obs = WaitLoopExit.waitFailed s1 ∨
     capturingWaitLoop s obs = WaitLoopExit.stateLeft s1) → s1.mSeq = q := by
  induction obs with
  | nil =>
    intro s s1 q hs _ h
    rcases h with h | h <;> unfold capturingWaitLoop at h <;> split at h <;>
      simp_all
  | cons o rest ih =>
    intro s s1 q hs hobs h
    rcases h with h | h <;> unfold capturingWaitLoop at h <;> split at h
    · split at h
      · exact ih (applyObs s o) s1 q (hobs o (List.mem_cons_self o rest))
          (fun x hx => hobs x (List.mem_cons_of_mem o hx)) (Or.inl h)
      · cases h
        exact hobs o (List.mem_cons_self o rest)
    · simp_all
    · split at h
      · exact ih (applyObs s o) s1 q (hobs o (List.mem_cons_self o rest))
          (fun x hx => hobs x (List.mem_cons_of_mem o hx)) (Or.inr h)
      · simp_all
    · cases h
      exact hs

/-- setSurfaceLocked, when it returns: either a no-op on an unchanged
surface, or a state with the buffer cleared, RELEASED forced, and the new
surface installed. -/
theorem setSurfaceLocked_some (s : ProducerState) (surface : Option Nat)
    (obs : List WaitObservation) (s1 : ProducerState) (calls : List DeviceCall)
    (h : BufferProducerThread.setSurfaceLocked s surface obs =
         some (s1, calls)) :
    (surface = s.mSurface ∧ s1 = s ∧ calls = []) ∨
    (surface ≠ s.mSurface ∧ s1.mBuffer = none ∧
     s1.mBufferState = BufferState.RELEASED ∧ s1.mSurface = surface) := by
  unfold BufferProducerThread.setSurfaceLocked at h
  split at h
  · left
    simp only [Option.some.injEq, Prod.mk.injEq] at h
    exact ⟨by assumption, h.1.symm, h.2.symm⟩
  · right
    refine ⟨by assumption, ?_⟩
    split at h
    · exact absurd h (by simp)
    · simp only [Option.some.injEq, Prod.mk.injEq] at h
      rcases h with ⟨h1, -⟩
      rw [← h1]
      exact ⟨rfl, rfl, rfl⟩
    · simp only [Option.some.injEq, Prod.mk.injEq] at h
      rcases h with ⟨h1, -⟩
      rw [← h1]
      exact ⟨rfl, rfl, rfl⟩

/-- setSurfaceLocked never writes mSeq: the result's mSeq is whatever the
wait observations last reported (or the input's, if no wait ran). -/
theorem setSurfaceLocked_seq (s : ProducerState) (surface : Option Nat)
    (obs : List WaitObservation) (s1 : ProducerState) (calls : List DeviceCall)
    (q : Nat) (hs : s.mSeq = q) (hobs : ∀ o ∈ obs, o.mSeq = q)
    (h : BufferProducerThread.setSurfaceLocked s surface obs =
         some (s1, calls)) : s1.mSeq = q := by
  unfold BufferProducerThread.setSurfaceLocked at h
  split at h
  · simp only [Option.some.injEq, Prod.mk.injEq] at h
    rw [← h.1]
    exact hs
  · split at h
    · exact absurd h (by simp)
    · rename_i s0 heq
      simp only [Option.some.injEq, Prod.mk.injEq] at h
      rcases h with ⟨h1, -⟩
      rw [← h1]
      exact capturingWaitLoop_seq obs s s0 q hs hobs (Or.inl heq)
    · rename_i s0 heq
      simp only [Option.some.injEq, Prod.mk.injEq] at h
      rcases h with ⟨h1, -⟩
      rw [← h1]
      exact capturingWaitLoop_seq obs s s0 q hs hobs (Or.inr heq)

theorem threadLoopDequeue_inv (anw : Option Nat) (env : LoopEnv)
    (s2 : ProducerState) (r : Bool) (s1 : ProducerState)
    (calls : List DeviceCall) (hI : bufferInv s2)
    (h : threadLoopDequeue anw env s2 = some (r, s1, calls)) : bufferInv s1 := by
  unfold threadLoopDequeue at h
  split at h
  · split at h <;> simp only [Option.some.injEq, Prod.mk.injEq] at h <;>
      rcases h with ⟨-, h1, -⟩ <;> subst h1
    · exact hI
    · simp [bufferInv]
  · simp only [Option.some.injEq, Prod.mk.injEq] at h
    rcases h with ⟨-, h1, -⟩
    subst h1
    exact hI

/-! Claim C1. -/

/-- C1, counterexample.  The claim says every operation preserves the
buffer-iff-capturing invariant, including the defensive path of onCaptured.
But onCaptured(0, succeeded) on a freshly constructed producer (state
RELEASED, null buffer, the defensive not-CAPTURING path) sets CAPTURED while
the buffer stays null, breaking the invariant. -/
theorem C1_counterexample :
    bufferInv (BufferProducerThread.init 1 0) ∧
    ¬ bufferInv
        ((BufferProducerThread.onCaptured (BufferProducerThread.init 1 0) 0
          true).1) := by
  constructor <;> decide

/-- C1, amended: construction, setSurfaceLocked, shutdown and threadLoop
(the latter whenever the concurrent writers seen during its waits respect
the invariant) preserve the buffer-iff-capturing invariant, and onCaptured
preserves it except precisely on the defensive path with succeeded = true
while the state is RELEASED. -/
theorem C1_amended :
    (∀ d sid, bufferInv (BufferProducerThread.init d sid)) ∧
    (∀ s surface obs s1 calls, bufferInv s →
      BufferProducerThread.setSurfaceLocked s surface obs = some (s1, calls) →
      bufferInv s1) ∧
    (∀ s q b, bufferInv s →
      ¬(b = true ∧ s.mBufferState = BufferState.RELEASED) →
      bufferInv (BufferProducerThread.onCaptured s q b).1) ∧
    (∀ s obs s1 calls, bufferInv s →
      BufferProducerThread.shutdown s obs = some (s1, calls) → bufferInv s1) ∧
    (∀ s env r s1 calls, bufferInv s → obsInv env.surfaceWait →
      (∀ o ∈ env.capturingWaits, obsInv o) →
      BufferProducerThread.threadLoop s env = some (r, s1, calls) →
      bufferInv s1) := by
  have hset : ∀ (s : ProducerState) (surface : Option Nat)
      (obs : List WaitObservation) (s1 : ProducerState)
      (calls : List DeviceCall), bufferInv s →
      BufferProducerThread.setSurfaceLocked s surface obs = some (s1, calls) →
      bufferInv s1 := by
    intro s surface obs s1 calls hI h
    rcases setSurfaceLocked_some s surface obs s1 calls h with
      ⟨-, h1, -⟩ | ⟨-, h1, h2, -⟩
    · rw [h1]
      exact hI
    · simp [bufferInv, h1, h2]
  refine ⟨?_, hset, ?_, ?_, ?_⟩
  · intro d sid
    simp [bufferInv, BufferProducerThread.init]
  · intro s q b hI hnb
    unfold BufferProducerThread.onCaptured
    cases b
    · simp [bufferInv]
    · have hbuf : s.mBuffer ≠ none := by
        apply hI.mpr
        cases hbs : s.mBufferState
        · exact Or.inl rfl
        · exact Or.inr rfl
        · exact absurd ⟨rfl, hbs⟩ hnb
      simp [bufferInv, hbuf]
  · intro s obs s1 calls hI h
    unfold BufferProducerThread.shutdown at h
    exact hset _ _ _ _ _ (by simpa [bufferInv] using hI) h
  · intro s env r s1 calls hI ho1 ho2 h
    unfold BufferProducerThread.threadLoop at h
    split at h
    · split at h <;>
        simp only [Option.some.injEq, Prod.mk.injEq] at h <;>
        rcases h with ⟨-, h1, -⟩ <;> rw [← h1] <;>
        exact (bufferInv_applyObs s env.surfaceWait).mpr ho1
    · split at h
      · exact absurd h (by simp)
      · rename_i s0 heq
        simp only [Option.some.injEq, Prod.mk.injEq] at h
        rcases h with ⟨-, h1, -⟩
        rw [← h1]
        exact capturingWaitLoop_inv env.capturingWaits s s0 hI ho2 (Or.inl heq)
      · rename_i s0 heq
        have hs0 : bufferInv s0 :=
          capturingWaitLoop_inv env.capturingWaits s s0 hI ho2 (Or.inr heq)
        split at h
        · split at h
          · exact threadLoopDequeue_inv _ env _ r s1 calls (by simp [bufferInv]) h
          · simp only [Option.some.injEq, Prod.mk.injEq] at h
            rcases h with ⟨-, h1, -⟩
            rw [← h1]
            exact hs0
        · exact threadLoopDequeue_inv _ env _ r s1 calls hs0 h

/-- C1 amended, witness: a mid-capture producer holding a buffer, hit by an
onCaptured outside the excluded path, still satisfies the invariant. -/
theorem C1_amended_witness :
    bufferInv ((BufferProducerThread.onCaptured sW6 99 true).1) :=
  C1_amended.2.2.1 sW6 99 true (by decide) (by decide)

/-! Claim C2. -/

/-- C2, counterexample.  onCaptured(5, true) on a fresh producer has a
mismatched sequence (expected 0) and a non-CAPTURING state, yet the state
tag still changes from RELEASED to CAPTURED: the call is not
ignored-beyond-a-warning as the claim states. -/
theorem C2_counterexample :
    (BufferProducerThread.init 1 0).mSeq ≠ 5 ∧
    (BufferProducerThread.init 1 0).mBufferState = BufferState.RELEASED ∧
    (BufferProducerThread.onCaptured (BufferProducerThread.init 1 0) 5
        true).1.mBufferState = BufferState.CAPTURED := by
  decide

/-- C2, amended: onCaptured warns exactly when the sequence mismatches or the
state is not CAPTURING, but the resulting state never depends on the
sequence: success always sets CAPTURED (keeping the buffer), failure always
clears the buffer and sets RELEASED. -/
theorem C2_amended (s : ProducerState) (q : Nat) (b : Bool) :
    ((BufferProducerThread.onCaptured s q b).2 = [] ↔
      (q = s.mSeq ∧ s.mBufferState = BufferState.CAPTURING)) ∧
    (BufferProducerThread.onCaptured s q b).1 =
      (BufferProducerThread.onCaptured s s.mSeq b).1 ∧
    (BufferProducerThread.onCaptured s q b).1.mBufferState =
      (if b then BufferState.CAPTURED else BufferState.RELEASED) ∧
    (BufferProducerThread.onCaptured s q b).1.mBuffer =
      (if b then s.mBuffer else none) := by
  unfold BufferProducerThread.onCaptured
  cases b <;> by_cases h1 : q = s.mSeq <;>
    by_cases h2 : s.mBufferState = BufferState.CAPTURING <;>
    simp [h1, h2]

/-! Claim C6. -/

/-- C6: when setSurfaceLocked returns, an unchanged surface was a complete
no-op, and a changed surface always leaves the producer RELEASED with no
buffer reference and the new surface installed, for every wait-observation
trace, including those where the bounded wait ends in an error and the
operation proceeds through the break. -/
theorem C6_rebind (s : ProducerState) (surface : Option Nat)
    (obs : List WaitObservation) (s1 : ProducerState) (calls : List DeviceCall)
    (h : BufferProducerThread.setSurfaceLocked s surface obs =
         some (s1, calls)) :
    (surface = s.mSurface → s1 = s ∧ calls = []) ∧
    (surface ≠ s.mSurface →
      s1.mBufferState = BufferState.RELEASED ∧ s1.mBuffer = none ∧
      s1.mSurface = surface) := by
  rcases setSurfaceLocked_some s surface obs s1 calls h with
    ⟨he, h1, h2⟩ | ⟨hne, h1, h2, h3⟩
  · exact ⟨fun _ => ⟨h1, h2⟩, fun hn => absurd he hn⟩
  · exact ⟨fun he => absurd he hne, fun _ => ⟨h2, h1, h3⟩⟩

/-- C6, witness: a CAPTURING producer rebound to surface 8 while the single
bounded wait fails (the cancellation never lands) still ends RELEASED with
no buffer and the new surface installed. -/
theorem C6_witness :
    sW6r.mBufferState = BufferState.RELEASED ∧ sW6r.mBuffer = none ∧
    sW6r.mSurface = some 8 :=
  (C6_rebind sW6 (some 8) obsW6 sW6r
      [DeviceCall.cancelCapture 1 0 4] (by decide)).2 (by decide)

/-! Claim C5. -/

/-- runStart is reachable: it is the constructed producer after its first
setSurface(surface 0). -/
theorem runStart_reachable :
    BufferProducerThread.setSurfaceLocked (BufferProducerThread.init 1 0)
      (some 0) [] = some (runStart, []) := by
  decide

/-- One happy-path cycle from the steady CAPTURED shape queues the previous
buffer, dequeues a fresh one, submits the capture with the sequence bumped
modulo 2 ^ 32, and completes it. -/
theorem cycle_captured (m : Nat) :
    cycle { mDeviceId := 1, mStreamId := 0, mSurface := some 0,
            mBuffer := some 0, mBufferState := BufferState.CAPTURED,
            mSeq := m, mShutdown := false } =
    { mDeviceId := 1, mStreamId := 0, mSurface := some 0, mBuffer := some 0,
      mBufferState := BufferState.CAPTURED, mSeq := (m + 1) % 2 ^ 32,
      mShutdown := false } := rfl

/-- The request submitted by a threadLoop iteration from the steady CAPTURED
shape carries the bumped sequence. -/
theorem threadLoop_captured (m : Nat) :
    BufferProducerThread.threadLoop
      { mDeviceId := 1, mStreamId := 0, mSurface := some 0, mBuffer := some 0,
        mBufferState := BufferState.CAPTURED, mSeq := m, mShutdown := false }
      happyEnv =
    some (true,
          { mDeviceId := 1, mStreamId := 0, mSurface := some 0,
            mBuffer := some 0, mBufferState := BufferState.CAPTURING,
            mSeq := (m + 1) % 2 ^ 32, mShutdown := false },
          [DeviceCall.requestCapture 1 0 0 ((m + 1) % 2 ^ 32)]) := rfl

theorem seq_bump (a : Nat) :
    (a % 2 ^ 32 + 1) % 2 ^ 32 = (a + 1) % 2 ^ 32 := by
  conv_rhs => rw [Nat.add_mod]
  norm_num

/-- Closed form of the deterministic run: after n + 1 cycles the producer is
in the steady CAPTURED shape with sequence (n + 1) % 2 ^ 32. -/
theorem runFromStart_closed (k : Nat) :
    runFromStart (k + 1) =
    { mDeviceId := 1, mStreamId := 0, mSurface := some 0, mBuffer := some 0,
      mBufferState := BufferState.CAPTURED, mSeq := (k + 1) % 2 ^ 32,
      mShutdown := false } := by
  induction k with
  | zero => rfl
  | succ n ih =>
    have hb : ((n + 1) % 2 ^ 32 + 1) % 2 ^ 32 = (n + 1 + 1) % 2 ^ 32 :=
      seq_bump (n + 1)
    show cycle (runFromStart (n + 1)) = _
    rw [ih, cycle_captured, hb]

/-- Every cycle of the deterministic run submits exactly one capture request,
carrying sequence (n + 1) % 2 ^ 32. -/
theorem cycleRequestSeq_closed (n : Nat) :
    cycleRequestSeq n = some ((n + 1) % 2 ^ 32) := by
  cases n with
  | zero => rfl
  | succ k =>
    unfold cycleRequestSeq
    rw [runFromStart_closed k, threadLoop_captured]
    show some (((k + 1) % 2 ^ 32 + 1) % 2 ^ 32) = _
    rw [seq_bump (k + 1)]

/-- C5, counterexample.  In the deterministic happy-path run, the request
submitted by cycle 0 carries sequence 1, while the request submitted by
cycle 2 ^ 32 - 1 (the 2 ^ 32-th request of the same producer) carries
sequence 0: a later request_capture of the same producer carries a strictly
smaller sequence number, because the uint32_t counter wraps. -/
theorem C5_counterexample :
    cycleRequestSeq 0 = some 1 ∧ cycleRequestSeq (2 ^ 32 - 1) = some 0 := by
  constructor
  · rw [cycleRequestSeq_closed]
    norm_num
  · rw [cycleRequestSeq_closed]
    norm_num

/-- C5, amended: each successive capture request of one producer carries the
previous sequence plus one reduced modulo 2 ^ 32, so the sequence numbers
are strictly increasing as long as fewer than 2 ^ 32 requests have been
submitted; the completion callback never writes the counter, and
setSurfaceLocked leaves it at whatever value the loop thread last gave it. -/
theorem C5_amended :
    (∀ n, cycleRequestSeq n = some ((n + 1) % 2 ^ 32)) ∧
    (∀ j k a b, j < k → k < 2 ^ 32 - 1 →
      cycleRequestSeq j = some a → cycleRequestSeq k = some b → a < b) ∧
    (∀ s q b, ((BufferProducerThread.onCaptured s q b).1).mSeq = s.mSeq) ∧
    (∀ s surface obs s1 calls q, s.mSeq = q → (∀ o ∈ obs, o.mSeq = q) →
      BufferProducerThread.setSurfaceLocked s surface obs = some (s1, calls) →
      s1.mSeq = q) := by
  refine ⟨cycleRequestSeq_closed, ?_, ?_, ?_⟩
  · intro j k a b hjk hk ha hb
    rw [cycleRequestSeq_closed] at ha hb
    have h32 : (0 : Nat) < 2 ^ 32 := by norm_num
    have haj : a = (j + 1) % 2 ^ 32 := by
      simpa using ha.symm
    have hbk : b = (k + 1) % 2 ^ 32 := by
      simpa using hb.symm
    rw [haj, hbk, Nat.mod_eq_of_lt (by omega), Nat.mod_eq_of_lt (by omega)]
    omega
  · intro s q b
    unfold BufferProducerThread.onCaptured
    cases b <;> simp
  · intro s surface obs s1 calls q hs hobs h
    exact setSurfaceLocked_seq s surface obs s1 calls q hs hobs h

/-- C5 amended, witness: the first two requests of the deterministic run
carry sequences 1 and 2, strictly increasing. -/
theorem C5_witness :
    cycleRequestSeq 0 = some 1 ∧ cycleRequestSeq 1 = some 2 ∧ 1 < 2 := by
  have h0 : cycleRequestSeq 0 = some 1 := by
    rw [cycleRequestSeq_closed]
    norm_num
  have h1 : cycleRequestSeq 1 = some 2 := by
    rw [cycleRequestSeq_closed]
    norm_num
  exact ⟨h0, h1, C5_amended.2.1 0 1 1 2 (by norm_num) (by norm_num) h0 h1⟩

/-! Association-table lemmas. -/

theorem lookupKey_updateKey_self {α : Type} (l : List (Nat × α)) (k : Nat)
    (v : α) (h : (lookupKey l k).isSome = true) :
    lookupKey (updateKey l k v) k = some v := by
  induction l with
  | nil => simp [lookupKey] at h
  | cons kv rest ih =>
    obtain ⟨k0, v0⟩ := kv
    by_cases hk : k0 = k
    · subst hk
      simp [lookupKey, updateKey]
    · simp only [lookupKey, updateKey, if_neg hk] at h ⊢
      exact ih h

theorem lookupKey_append_single {α : Type} (l : List (Nat × α)) (k : Nat)
    (v : α) (h : lookupKey l k = none) :
    lookupKey (l ++ [(k, v)]) k = some v := by
  induction l with
  | nil => simp [lookupKey]
  | cons kv rest ih =>
    obtain ⟨k0, v0⟩ := kv
    by_cases hk : k0 = k
    · simp [lookupKey, hk] at h
    · simp only [lookupKey, if_neg hk, List.cons_append] at h ⊢
      exact ih h

theorem lookupKey_addKey_self {α : Type} (l : List (Nat × α)) (k : Nat)
    (v : α) : lookupKey (addKey l k v) k = some v := by
  unfold addKey
  split
  · exact lookupKey_updateKey_self l k v (by assumption)
  · apply lookupKey_append_single
    rename_i hn
    cases hl : lookupKey l k
    · rfl
    · rw [hl] at hn
      simp at hn

theorem lookupKey_removeKey_self {α : Type} (l : List (Nat × α)) (k : Nat) :
    lookupKey (removeKey l k) k = none := by
  induction l with
  | nil => simp [removeKey, lookupKey]
  | cons kv rest ih =>
    obtain ⟨k0, v0⟩ := kv
    by_cases hk : k0 = k
    · subst hk
      simpa [removeKey, List.filter_cons] using ih
    · simp only [removeKey, List.filter_cons] at ih ⊢
      have hb : (k0 == k) = false := by simp [hk]
      simp only [hb, Bool.not_false, if_pos]
      simpa [lookupKey, hk] using ih

theorem lookupKey_ensureConnection_self (l : List (Nat × Connection))
    (sid : Nat) : (lookupKey (ensureConnection l sid) sid).isSome = true := by
  unfold ensureConnection
  split
  · simp [lookupKey_addKey_self]
  · rename_i hn
    cases hl : lookupKey l sid
    · rw [hl] at hn
      simp at hn
    · simp

theorem ensureDeviceTable_lookup (st : HalState) (d sid : Nat)
    (l : List (Nat × Connection))
    (hdev : lookupKey st.mConnections d = some l) :
    lookupKey (ensureDeviceTable st d sid l).mConnections d =
      some (ensureConnection l sid) := by
  unfold ensureDeviceTable ensureConnection
  split
  · exact lookupKey_updateKey_self st.mConnections d _ (by simp [hdev])
  · rename_i hn
    simpa [if_neg hn] using hdev

theorem lookupKey_writeConn_self (st : HalState) (d sid : Nat)
    (conns : List (Nat × Connection)) (c : Connection)
    (hdev : (lookupKey st.mConnections d).isSome = true)
    (hsid : (lookupKey conns sid).isSome = true) :
    lookupKey (writeConn st d sid conns c).mConnections d =
      some (updateKey conns sid c) ∧
    lookupKey (updateKey conns sid c) sid = some c := by
  exact ⟨lookupKey_updateKey_self st.mConnections d _ hdev,
         lookupKey_updateKey_self conns sid c hsid⟩

/-- Every NO_ERROR exit of addOrUpdateStream leaves the requested surface
bound in the Connection at (deviceId, streamId). -/
theorem addOrUpdateStream_success_surface (tv : ITvInput) (env : SurfaceEnv)
    (st : HalState) (d sid : Nat) (surface : Option Nat) (st1 : HalState)
    (calls : List DeviceCall)
    (h : JTvInputHal.addOrUpdateStream tv env st d sid surface =
         some (Status.NO_ERROR, st1, calls)) :
    ∃ conns c, lookupKey st1.mConnections d = some conns ∧
      lookupKey conns sid = some c ∧ c.mSurface = surface := by
  unfold JTvInputHal.addOrUpdateStream at h
  split at h
  · cases h
  · rename_i connections0 hdev
    simp only [] at h
    have hdev0 : lookupKey
        (ensureDeviceTable st d sid connections0).mConnections d =
        some (ensureConnection connections0 sid) :=
      ensureDeviceTable_lookup st d sid connections0 hdev
    split at h
    · cases h
    · rename_i connection hconn
      split at h
      · rename_i hsurf
        simp only [Option.some.injEq, Prod.mk.injEq] at h
        obtain ⟨-, h1, -⟩ := h
        rw [← h1]
        exact ⟨ensureConnection connections0 sid, connection, hdev0, hconn,
               hsurf⟩
      · repeat' split at h
        all_goals
          first
          | (simp only [Option.some.injEq, Prod.mk.injEq] at h
             obtain ⟨-, h1, -⟩ := h
             rw [← h1]
             exact ⟨_, _,
               (lookupKey_writeConn_self
                 (ensureDeviceTable st d sid connections0) d sid
                 (ensureConnection connections0 sid) _
                 (by simp [hdev0]) (by simp [hconn])).1,
               (lookupKey_writeConn_self
                 (ensureDeviceTable st d sid connections0) d sid
                 (ensureConnection connections0 sid) _
                 (by simp [hdev0]) (by simp [hconn])).2, rfl⟩)
          | simp at h

/-- A call whose requested surface is already the bound one is a no-op: it
returns NO_ERROR, changes nothing, and makes no device call. -/
theorem addOrUpdateStream_noop (tv : ITvInput) (env : SurfaceEnv)
    (st : HalState) (d sid : Nat) (surface : Option Nat)
    (conns : List (Nat × Connection)) (c : Connection)
    (hdev : lookupKey st.mConnections d = some conns)
    (hc : lookupKey conns sid = some c) (hs : c.mSurface = surface) :
    JTvInputHal.addOrUpdateStream tv env st d sid surface =
      some (Status.NO_ERROR, st, []) := by
  unfold JTvInputHal.addOrUpdateStream
  rw [hdev]
  simp [ensureConnection, ensureDeviceTable, hc, hs]

/-! Claim C3. -/

/-- C3: after addOrUpdateStream succeeds with a surface bound, repeating the
call with the same (deviceId, streamId, surface) succeeds, leaves the state
(and so every Connection field) untouched, and makes no device call. -/
theorem C3_idempotent (tv : ITvInput) (env : SurfaceEnv) (st : HalState)
    (d sid : Nat) (surface : Option Nat) (st1 : HalState)
    (calls : List DeviceCall)
    (h : JTvInputHal.addOrUpdateStream tv env st d sid surface =
         some (Status.NO_ERROR, st1, calls)) :
    JTvInputHal.addOrUpdateStream tv env st1 d sid surface =
      some (Status.NO_ERROR, st1, []) := by
  obtain ⟨conns, c, h1, h2, h3⟩ :=
    addOrUpdateStream_success_surface tv env st d sid surface st1 calls h
  exact addOrUpdateStream_noop tv env st1 d sid surface conns c h1 h2 h3

/-- C3, witness: against the concrete device tvW, the second identical call
for (1, 0, surface 5) is a no-op success with no device call. -/
theorem C3_witness :
    JTvInputHal.addOrUpdateStream tvW envW stW1 1 0 (some 5) =
      some (Status.NO_ERROR, stW1, []) :=
  C3_idempotent tvW envW stW0 1 0 (some 5) stW1
    [DeviceCall.getStreamConfigurations 1, DeviceCall.openStream 1 0]
    (by decide)

/-! Claim C4. -/

/-- C4: removeStream on a registered device but an unregistered streamId
returns the error status the source uses for a missing connection
(BAD_VALUE, the concrete code behind the spec's NotFound kind), performs no
device call, and leaves the connection tables untouched. -/
theorem C4_remove_missing (tv : ITvInput) (env : SurfaceEnv) (st : HalState)
    (d sid : Nat) (obs : List WaitObservation)
    (conns : List (Nat × Connection))
    (hdev : lookupKey st.mConnections d = some conns)
    (habs : lookupKey conns sid = none) :
    JTvInputHal.removeStream tv env st d sid obs =
      some (Status.BAD_VALUE, st, []) := by
  unfold JTvInputHal.removeStream
  rw [hdev]
  simp [habs]

/-- C4, witness: removing never-added stream 99 of device 1. -/
theorem C4_witness :
    JTvInputHal.removeStream tvW envW stW0 1 99 [] =
      some (Status.BAD_VALUE, stW0, []) :=
  C4_remove_missing tvW envW stW0 1 99 [] [] (by decide) (by decide)

/-! Claim C10. -/

theorem connAt_writeConn (st : HalState) (d sid : Nat)
    (conns : List (Nat × Connection)) (c : Connection)
    (h1 : (lookupKey st.mConnections d).isSome = true)
    (h2 : (lookupKey conns sid).isSome = true) :
    connAt (writeConn st d sid conns c) d sid = some c := by
  unfold connAt
  rw [(lookupKey_writeConn_self st d sid conns c h1 h2).1]
  exact (lookupKey_writeConn_self st d sid conns c h1 h2).2

theorem shutdownThread_some (c : Connection) (obs : List WaitObservation)
    (c2 : Connection) (pcalls : List DeviceCall)
    (h : shutdownThread c obs = some (c2, pcalls)) :
    c2 = { c with mThread := none } := by
  unfold shutdownThread at h
  split at h
  · rename_i hth
    simp only [Option.some.injEq, Prod.mk.injEq] at h
    rw [← h.1]
    cases c
    simp_all
  · split at h
    · cases h
    · simp only [Option.some.injEq, Prod.mk.injEq] at h
      rw [← h.1]

/-- C10: a successful removeStream that actually had a surface bound leaves
the Connection entry present with surface, source handle and producer
cleared (the stream kind is kept), and a repeated removeStream is a NO_ERROR
no-op making no device call. -/
theorem C10_remove_keeps_entry (tv : ITvInput) (env : SurfaceEnv)
    (st : HalState) (d sid : Nat) (obs obs2 : List WaitObservation)
    (conns : List (Nat × Connection)) (c : Connection) (st1 : HalState)
    (calls : List DeviceCall)
    (hdev : lookupKey st.mConnections d = some conns)
    (hc : lookupKey conns sid = some c) (hsurf : c.mSurface ≠ none)
    (h : JTvInputHal.removeStream tv env st d sid obs =
         some (Status.NO_ERROR, st1, calls)) :
    connAt st1 d sid = some { mSurface := none, mStreamType := c.mStreamType,
                              mSourceHandle := none, mThread := none } ∧
    JTvInputHal.removeStream tv env st1 d sid obs2 =
      some (Status.NO_ERROR, st1, []) := by
  unfold JTvInputHal.removeStream at h
  rw [hdev] at h
  simp only [] at h
  rw [hc] at h
  simp only [] at h
  rw [if_neg hsurf] at h
  split at h
  · cases h
  · rename_i c2 pcalls heq
    have hc2 : c2 = { c with mSurface := none, mThread := none } := by
      have := shutdownThread_some { c with mSurface := none } obs c2 pcalls heq
      simpa using this
    split at h
    · simp at h
    · simp only [Option.some.injEq, Prod.mk.injEq] at h
      obtain ⟨-, h1, -⟩ := h
      have hc3 : (if c2.mSourceHandle ≠ none then
            { c2 with mSourceHandle := none } else c2) =
          { mSurface := none, mStreamType := c.mStreamType,
            mSourceHandle := none, mThread := none } := by
        subst hc2
        by_cases hsh : c.mSourceHandle = none <;> simp [hsh]
      rw [hc3] at h1
      constructor
      · rw [← h1]
        exact connAt_writeConn st d sid conns _ (by simp [hdev]) (by simp [hc])
      · rw [← h1]
        unfold JTvInputHal.removeStream
        rw [(lookupKey_writeConn_self st d sid conns _
          (by simp [hdev]) (by simp [hc])).1]
        simp only []
        rw [(lookupKey_writeConn_self st d sid conns _
          (by simp [hdev]) (by simp [hc])).2]
        rfl

/-- C10, witness: the concrete two-call scenario on (1, 0). -/
theorem C10_witness :
    connAt stW10 1 0 =
      some (⟨none, connW1.mStreamType, none, none⟩ : Connection) ∧
    JTvInputHal.removeStream tvW envW stW10 1 0 [] =
      some (Status.NO_ERROR, stW10, []) :=
  C10_remove_keeps_entry tvW envW stW1 1 0 [] [] [(0, connW1)] connW1 stW10
    [DeviceCall.closeStream 1 0] (by decide) (by decide) (by decide)
    (by decide)

/-! Claim C7. -/

/-- C7, counterexample.  With a producer attached to (1, 0), a first
completion event with seq = 0 raises firstFrameCaptured, and a second
completion event with seq = 0 on the same producer raises it again: the
notification is keyed on seq == 0 alone, with no one-shot marker. -/
theorem C7_counterexample :
    JTvInputHal.onCaptured stC7 1 0 0 true =
      some (stC7b, [WarningLog.notCapturingState BufferState.RELEASED],
            [Notification.firstFrameCaptured 1 0]) ∧
    JTvInputHal.onCaptured stC7b 1 0 0 true =
      some (stC7b, [WarningLog.notCapturingState BufferState.CAPTURED],
            [Notification.firstFrameCaptured 1 0]) := by
  constructor <;> decide

/-- C7, amended: a registry completion event raises firstFrameCaptured
exactly when the Connection owns a producer and seq = 0 — every such event,
not only the first: no one-shot marker exists, the trigger is the seq == 0
comparison alone. -/
theorem C7_amended (st : HalState) (d sid q : Nat) (b : Bool)
    (st1 : HalState) (warns : List WarningLog) (notifs : List Notification)
    (c : Connection) (hc : connAt st d sid = some c)
    (h : JTvInputHal.onCaptured st d sid q b = some (st1, warns, notifs)) :
    notifs = (if c.mThread.isSome = true ∧ q = 0
              then [Notification.firstFrameCaptured d sid] else []) := by
  unfold connAt at hc
  unfold JTvInputHal.onCaptured at h
  cases hdev : lookupKey st.mConnections d with
  | none =>
    rw [hdev] at hc
    cases hc
  | some conns =>
    rw [hdev] at hc h
    simp only [] at hc h
    rw [hc] at h
    simp only [] at h
    cases hth : c.mThread with
    | none =>
      rw [hth] at h
      simp only [Option.some.injEq, Prod.mk.injEq] at h
      obtain ⟨-, -, h3⟩ := h
      rw [← h3]
      simp [hth]
    | some p =>
      rw [hth] at h
      simp only [Option.some.injEq, Prod.mk.injEq] at h
      obtain ⟨-, -, h3⟩ := h
      rw [← h3]
      by_cases hq : q = 0 <;> simp [hth, hq]

/-- C7 amended, witness: the first event of the counterexample scenario,
through the amended characterization. -/
theorem C7_witness :
    ([Notification.firstFrameCaptured 1 0] : List Notification) =
      (if cC7.mThread.isSome = true ∧ (0 : Nat) = 0
       then [Notification.firstFrameCaptured 1 0] else []) :=
  C7_amended stC7 1 0 0 true stC7b
    [WarningLog.notCapturingState BufferState.RELEASED]
    [Notification.firstFrameCaptured 1 0] cC7 (by decide) (by decide)

/-! Claim C8. -/

theorem removeAllStreams_fst (tv : ITvInput) (env : SurfaceEnv)
    (keys : List Nat) :
    ∀ (st : HalState) (d : Nat) (obsFn : Nat → List WaitObservation)
      (st1 : HalState) (calls : List DeviceCall)
      (stats : List (Nat × Status)),
    removeAllStreams tv env st d keys obsFn = some (st1, calls, stats) →
    stats.map Prod.fst = keys := by
  induction keys with
  | nil =>
    intro st d obsFn st1 calls stats h
    unfold removeAllStreams at h
    simp only [Option.some.injEq, Prod.mk.injEq] at h
    obtain ⟨-, -, h3⟩ := h
    rw [← h3]
    rfl
  | cons k rest ih =>
    intro st d obsFn st1 calls stats h
    unfold removeAllStreams at h
    split at h
    · cases h
    · split at h
      · cases h
      · simp only [Option.some.injEq, Prod.mk.injEq] at h
        obtain ⟨-, -, h3⟩ := h
        rw [← h3]
        simp only [List.map_cons]
        congr 1
        exact ih _ _ _ _ _ _ (by assumption)

/-- C8: when a device with a registered table becomes unavailable, the
remove-stream protocol is invoked once per Connection of that device
(whatever statuses those calls return — the sweep is not aborted by
errors), the device's table entry is removed, and exactly one
deviceUnavailable notification is raised. -/
theorem C8_unavailable (tv : ITvInput) (env : SurfaceEnv) (st : HalState)
    (d : Nat) (obsFn : Nat → List WaitObservation)
    (conns : List (Nat × Connection)) (st1 : HalState)
    (calls : List DeviceCall) (stats : List (Nat × Status))
    (notifs : List Notification)
    (hdev : lookupKey st.mConnections d = some conns)
    (h : JTvInputHal.onDeviceUnavailable tv env st d obsFn =
         some (st1, calls, stats, notifs)) :
    notifs = [Notification.deviceUnavailable d] ∧
    lookupKey st1.mConnections d = none ∧
    stats.map Prod.fst = keysOf conns := by
  unfold JTvInputHal.onDeviceUnavailable at h
  rw [hdev] at h
  simp only [] at h
  split at h
  · cases h
  · rename_i st2 calls2 stats2 heq
    simp only [Option.some.injEq, Prod.mk.injEq] at h
    obtain ⟨h1, h2, h3, h4⟩ := h
    refine ⟨h4.symm, ?_, ?_⟩
    · rw [← h1]
      exact lookupKey_removeKey_self st2.mConnections d
    · rw [← h3]
      exact removeAllStreams_fst tv env (keysOf conns) st d obsFn st2 calls2
        stats2 heq

/-- C8, witness: device 1 with two bound streams, the first closeStream
failing; both streams are still visited, the table entry vanishes, and a
single deviceUnavailable(1) is raised. -/
theorem C8_witness :
    ([Notification.deviceUnavailable 1] : List Notification) =
      [Notification.deviceUnavailable 1] ∧
    lookupKey stW8r.mConnections 1 = none ∧
    ([(0, Status.BAD_VALUE), (2, Status.NO_ERROR)] :
      List (Nat × Status)).map Prod.fst = keysOf [(0, cW8a), (2, cW8b)] :=
  C8_unavailable tvW8 envW stW8 1 noObs [(0, cW8a), (2, cW8b)] stW8r
    [DeviceCall.closeStream 1 0, DeviceCall.closeStream 1 2]
    [(0, Status.BAD_VALUE), (2, Status.NO_ERROR)]
    [Notification.deviceUnavailable 1] (by decide) (by rfl)

/-! Claim C9. -/

/-- C9: a first-time stream setup (Connection without source handle or
producer, requested surface differing from the bound one) that finds a
config entry for streamId and opens the stream successfully always marks the
Connection IndependentSource with the returned handle and creates no Buffer
Producer, making exactly the getStreamConfigurations and openStream calls;
and the fetched configuration list influences addOrUpdateStream only through
whether an entry with the requested streamId is present. -/
theorem C9_independent_source :
    (∀ (tv : ITvInput) (env : SurfaceEnv) (st : HalState) (d sid : Nat)
       (surface : Option Nat) (st1 : HalState) (calls : List DeviceCall)
       (hnd : Nat),
      (match connAt st d sid with
       | none => True
       | some c => c.mSourceHandle = none ∧ c.mThread = none ∧
           c.mSurface ≠ surface) →
      surface ≠ none →
      tv.openStream d sid = (Result.OK, some hnd) →
      JTvInputHal.addOrUpdateStream tv env st d sid surface =
        some (Status.NO_ERROR, st1, calls) →
      connAt st1 d sid =
        some (⟨surface, some StreamType.INDEPENDENT_VIDEO_SOURCE,
               some hnd, none⟩ : Connection) ∧
      calls = [DeviceCall.getStreamConfigurations d,
               DeviceCall.openStream d sid]) ∧
    (∀ (tv1 tv2 : ITvInput) (env : SurfaceEnv) (st : HalState) (d sid : Nat)
       (surface : Option Nat),
      tv1.openStream = tv2.openStream →
      (tv1.getStreamConfigurations d).1 = (tv2.getStreamConfigurations d).1 →
      ((tv1.getStreamConfigurations d).2.findIdx?
          (fun cfg => cfg.streamId == sid)).isSome =
        ((tv2.getStreamConfigurations d).2.findIdx?
          (fun cfg => cfg.streamId == sid)).isSome →
      JTvInputHal.addOrUpdateStream tv1 env st d sid surface =
        JTvInputHal.addOrUpdateStream tv2 env st d sid surface) := by
  constructor
  · intro tv env st d sid surface st1 calls hnd hfresh hsn hopen h
    unfold connAt at hfresh
    unfold JTvInputHal.addOrUpdateStream at h
    split at h
    · cases h
    · rename_i connections0 hdev
      rw [hdev] at hfresh
      simp only [] at hfresh h
      rw [hopen] at h
      simp only [] at h
      have hconn2 : ∃ connection,
          lookupKey (ensureConnection connections0 sid) sid =
            some connection ∧
          connection.mSourceHandle = none ∧ connection.mThread = none ∧
          connection.mSurface ≠ surface := by
        cases hentry : lookupKey connections0 sid with
        | none =>
          refine ⟨Connection.init, ?_, rfl, rfl, fun he => hsn he.symm⟩
          unfold ensureConnection
          rw [hentry]
          exact lookupKey_addKey_self connections0 sid Connection.init
        | some c =>
          rw [hentry] at hfresh
          refine ⟨c, ?_, hfresh.1, hfresh.2.1, hfresh.2.2⟩
          unfold ensureConnection
          rw [hentry]
          simp [lookupKey, hentry]
      obtain ⟨connection, hec, hsh, hth, hsne⟩ := hconn2
      rw [hec] at h
      simp only [] at h
      rw [if_neg hsne] at h
      have hc1eq : (if connection.mSurface ≠ none then
            { connection with mSurface := none } else connection) =
          { connection with mSurface := none } := by
        split
        · rfl
        · rename_i hns
          push_neg at hns
          cases connection
          simp_all
      rw [hc1eq] at h
      rw [if_pos (show ({ connection with mSurface := none
          } : Connection).mSourceHandle = none ∧ ({ connection with
          mSurface := none } : Connection).mThread = none from
          ⟨hsh, hth⟩)] at h
      split at h
      · simp at h
      · split at h
        · simp at h
        · simp only [Option.some.injEq, Prod.mk.injEq] at h
          obtain ⟨-, h1, h2⟩ := h
          refine ⟨?_, h2.symm⟩
          rw [← h1, hth]
          exact connAt_writeConn (ensureDeviceTable st d sid connections0) d
            sid (ensureConnection connections0 sid) _
            (by simp [ensureDeviceTable_lookup st d sid connections0 hdev])
            (by simp [hec])
  · intro tv1 tv2 env st d sid surface hopen hgsc1 hfind
    unfold JTvInputHal.addOrUpdateStream
    cases hdev : lookupKey st.mConnections d with
    | none => rfl
    | some connections0 => simp only [hopen, hgsc1, hfind]

/-- C9, witness: first-time setup of (1, 0) with surface 5 against tvW ends
IndependentSource with handle 7, no producer, and exactly the two device
calls. -/
theorem C9_witness :
    connAt stW1 1 0 =
      some (⟨some 5, some StreamType.INDEPENDENT_VIDEO_SOURCE, some 7,
             none⟩ : Connection) ∧
    ([DeviceCall.getStreamConfigurations 1, DeviceCall.openStream 1 0] :
      List DeviceCall) =
      [DeviceCall.getStreamConfigurations 1, DeviceCall.openStream 1 0] :=
  C9_independent_source.1 tvW envW stW0 1 0 (some 5) stW1
    [DeviceCall.getStreamConfigurations 1, DeviceCall.openStream 1 0] 7
    True.intro (by decide) (by decide) (by decide)
